import Mathlib

/-!
Shallow embedding of the agent core of the Synapse AI LLM-agent repository
(single-page browser agent, main module `src/unnamed/part_000`, class
`LLMAgent`).  The embedding covers:

* the pause/cancel gate (`checkPauseState`, `cancelProcessing`,
  `resumeProcessing`, fields `isProcessing` / `isPaused` and the
  `abortController` signal);
* the sandboxed code evaluator envelope (`executeJavaScript`);
* the web-search tool (`googleSearch`);
* the tool dispatcher (`executeTool`, `handleToolCalls`);
* the turn loop (`agentLoop`, `callLLM`) together with the error
  classification done by `sendMessage`'s catch block.

External effects (the remote completion endpoint, the search provider, the
browser's JS engine for dynamically built functions, JSON parsing of tool
arguments) are passed in as explicit oracle values/functions, so every
definition is executable.  DOM rendering, theming and localStorage are
presentation glue outside the claims and are not modelled, except that calls
to `addMessage('agent', ...)` are recorded as display events because two
claims count them.
-/

namespace Synapse

/-! ## Cancellation/pause gate (`checkPauseState` and its state) -/

/-- The mutable per-turn flags of `LLMAgent` consulted by `checkPauseState`:
`isProcessing`, `isPaused`, and `abortController.signal.aborted`. -/
structure LoopState where
  isProcessing : Bool
  isPaused : Bool
  aborted : Bool
deriving DecidableEq, Repr

/-- What one observation of the state inside `checkPauseState` does:
either the polling loop `while (this.isPaused && this.isProcessing)` runs
another iteration (`blocked`), or — once that guard is false — the method
throws `Error('Request was cancelled')` when the abort signal is set
(`raiseCancelled`), or it returns normally (`proceed`). -/
inductive CheckpointStep
  | blocked
  | raiseCancelled
  | proceed
deriving DecidableEq, Repr

/-- One observation step of `checkPauseState` (src/unnamed/part_000 lines
313–325).  The abort check sits after the polling loop, so it is only
reached when the guard `isPaused && isProcessing` is false.  The polling
itself does not modify the state, so a `blocked` observation repeats until
some external setter (`resumeProcessing`, the `finally` of `sendMessage`)
changes a flag. -/
def checkPauseStep (s : LoopState) : CheckpointStep :=
  if s.isPaused && s.isProcessing then .blocked
  else if s.aborted then .raiseCancelled
  else .proceed

/-- `cancelProcessing` (lines 297–303): aborts the shared controller.  It
does not touch `isPaused` or `isProcessing` (the remaining statements only
update the DOM). -/
def cancelProcessing (s : LoopState) : LoopState :=
  { s with aborted := true }

/-- `resumeProcessing` (lines 290–295): clears the pause flag (the remaining
statements only update the DOM). -/
def resumeProcessing (s : LoopState) : LoopState :=
  { s with isPaused := false }

/-! ## Sandboxed code evaluation (`executeJavaScript`) -/

/-- Values produced by the snippets the claims exercise.  `vnull` is the JS
`null` the envelope substitutes when `return_value` is false; `vundefined` is
the `undefined` an IIFE returns when no `return` statement runs. -/
inductive JsVal
  | vnull
  | vundefined
  | vnum (n : Int)
  | vstr (s : String)
deriving DecidableEq, Repr

/-- Arithmetic/string expressions of the modelled snippet language. -/
inductive JsExpr
  | lit (n : Int)
  | str (s : String)
  | add (a b : JsExpr)
  | mul (a b : JsExpr)
deriving DecidableEq, Repr

/-- Evaluation of an expression (JS evaluation restricted to the numeric and
string fragment the snippets use; `add` on two numbers is numeric `+`). -/
def evalExpr : JsExpr → JsVal
  | .lit n => .vnum n
  | .str s => .vstr s
  | .add a b =>
    match evalExpr a, evalExpr b with
    | .vnum x, .vnum y => .vnum (x + y)
    | .vstr x, .vstr y => .vstr (x ++ y)
    | _, _ => .vundefined
  | .mul a b =>
    match evalExpr a, evalExpr b with
    | .vnum x, .vnum y => .vnum (x * y)
    | _, _ => .vundefined

/-- Rendering of a value the way `args.join(' ')` stringifies a single
console argument. -/
def showVal : JsVal → String
  | .vnull => "null"
  | .vundefined => "undefined"
  | .vnum n => toString n
  | .vstr s => s

/-- Statements of the modelled snippet language: `return e`,
`console.log(e)`, `console.warn(e)`, `console.error(e)`, and `throw`.  The
user code runs inside the IIFE the source builds around it. -/
inductive JsStmt
  | ret (e : JsExpr)
  | logE (e : JsExpr)
  | warnE (e : JsExpr)
  | errorE (e : JsExpr)
  | throwE (msg : String)
deriving DecidableEq, Repr

/-- Running the wrapped IIFE with the captured `mockConsole` of
`executeJavaScript`: `log` pushes the rendered arguments, `warn` prefixes
"WARN: ", `error` prefixes "ERROR: " (lines 543–548); a `throw` rejects with
the error message; falling off the end yields `undefined`. -/
def runStmts : List JsStmt → List String → Except String (JsVal × List String)
  | [], logs => .ok (.vundefined, logs)
  | .ret e :: _, logs => .ok (evalExpr e, logs)
  | .logE e :: rest, logs => runStmts rest (logs ++ [showVal (evalExpr e)])
  | .warnE e :: rest, logs => runStmts rest (logs ++ ["WARN: " ++ showVal (evalExpr e)])
  | .errorE e :: rest, logs => runStmts rest (logs ++ ["ERROR: " ++ showVal (evalExpr e)])
  | .throwE m :: _, _ => .error m

/-- Result envelope of `executeJavaScript` (lines 553–566).  The success
object carries `code`, `result`, `console_output` and `success: true`; the
catch branch returns only `code`, `error` and `success: false` — in
particular it has no `result` (and no `console_output`) field, which the
two constructors record structurally. -/
inductive JsEnvelope
  | ok (code : List JsStmt) (result : JsVal) (console_output : List String)
  | err (code : List JsStmt) (error : String)
deriving DecidableEq, Repr

/-- The `success` flag of the envelope. -/
def JsEnvelope.success : JsEnvelope → Bool
  | .ok _ _ _ => true
  | .err _ _ => false

/-- The `result` field of the envelope, when present. -/
def JsEnvelope.resultField : JsEnvelope → Option JsVal
  | .ok _ r _ => some r
  | .err _ _ => none

/-- The `error` field of the envelope, when present. -/
def JsEnvelope.errorField : JsEnvelope → Option String
  | .ok _ _ _ => none
  | .err _ m => some m

/-- `executeJavaScript` (lines 532–567): run the user code inside the built
function with the mock console; on normal completion return the success
envelope with `result` equal to the code's value when `return_value` is
true and `null` otherwise; on a thrown exception return the failure
envelope carrying the exception message. -/
def executeJavaScript (code : List JsStmt) (return_value : Bool) : JsEnvelope :=
  match runStmts code [] with
  | .ok (v, logs) => .ok code (if return_value then v else .vnull) logs
  | .error m => .err code m

/-! ## Web search tool (`googleSearch`) -/

/-- One item of the provider's `items` array.  Real Custom Search items
carry more fields than the three the tool keeps; `displayLink` stands for
the dropped remainder. -/
structure ProviderItem where
  title : String
  link : String
  snippet : String
  displayLink : String
deriving DecidableEq, Repr

/-- One mapped result, `{title, link, snippet}` (lines 479–483). -/
structure SearchResult where
  title : String
  link : String
  snippet : String
deriving DecidableEq, Repr

/-- The parsed JSON body of the provider response together with the HTTP
status.  `items = some l` models a present (non-null) `items` field — any
array, even empty, is truthy in JS; `items = none` models an absent or null
field.  `errorBody` models a provider error object in the body (for example
a quota error); the code never reads it, and it never reads `status`
either. -/
structure ProviderResponse where
  status : Nat
  items : Option (List ProviderItem)
  errorBody : Option String
deriving DecidableEq, Repr

/-- Outcome of `fetch` + `response.json()` inside `googleSearch`: either a
rejection (network failure, abort, non-JSON body), or a parsed body. -/
inductive FetchOutcome
  | fail (msg : String)
  | respond (r : ProviderResponse)
deriving DecidableEq, Repr

/-- The success envelope `googleSearch` returns: always the query and the
mapped results; the explanatory `message` field is only present on the
zero-results branch. -/
structure SearchEnvelope where
  query : String
  results : List SearchResult
  message : Option String
deriving DecidableEq, Repr

/-- The `{title, link, snippet}` projection of lines 479–483. -/
def mapItem (it : ProviderItem) : SearchResult :=
  { title := it.title, link := it.link, snippet := it.snippet }

/-- `googleSearch` (lines 466–491).  The response status is never
consulted; the code branches only on the truthiness of `data.items`.  A
rejection of `fetch`/`json()` is re-thrown as "Search failed: ..."
(modelled as the `Except.error` case). -/
def googleSearch (query : String) (fetched : FetchOutcome) :
    Except String SearchEnvelope :=
  match fetched with
  | .fail m => .error ("Search failed: " ++ m)
  | .respond r =>
    match r.items with
    | some items =>
      .ok { query := query, results := items.map mapItem, message := none }
    | none =>
      .ok { query := query, results := [], message := some "No results found" }

/-! ## Tool dispatcher (`executeTool`, `handleToolCalls`) -/

/-- A tool call as delivered by the model: `toolCall.id`,
`toolCall.function.name` and the raw JSON string
`toolCall.function.arguments`. -/
structure ToolCall where
  id : String
  name : String
  arguments : String
deriving DecidableEq, Repr

/-- The successful payload returned by one of the three executors. -/
inductive ToolPayload
  | search (e : SearchEnvelope)
  | workflow (workflow_type : String) (result : String)
  | js (e : JsEnvelope)
deriving DecidableEq, Repr

/-- The `result` slot of a dispatched tool call: either the executor's
payload, or the `{error: message}` object built in the catch branch of
`handleToolCalls`. -/
inductive ToolResultPayload
  | success (p : ToolPayload)
  | error (message : String)
deriving DecidableEq, Repr

/-- One entry pushed on the `results` array of `handleToolCalls`:
`{tool_call_id, result}`. -/
structure ToolResult where
  tool_call_id : String
  result : ToolResultPayload
deriving DecidableEq, Repr

/-- The two external effects a dispatched call performs, supplied as
oracles: `parse` is `JSON.parse(args)` (which can throw), and `run` is the
chosen executor (`googleSearch` / `aiPipeWorkflow` / `executeJavaScript`)
applied to the parsed params — its network and JS-engine effects make it an
oracle from tool name and raw arguments to payload-or-thrown-message. -/
structure ToolEnv where
  parse : String → Except String Unit
  run : String → String → Except String ToolPayload

/-- Tool names the `switch` of `executeTool` recognizes. -/
def knownTool (name : String) : Bool :=
  name = "google_search" || name = "ai_pipe_workflow" || name = "execute_javascript"

/-- `executeTool` (lines 450–464): parse the raw arguments (a parse failure
throws out of the function), then dispatch on the tool name; an unknown
name throws `Error('Unknown tool: <name>')`. -/
def executeTool (env : ToolEnv) (tc : ToolCall) : Except String ToolPayload :=
  match env.parse tc.arguments with
  | .error e => .error e
  | .ok _ =>
    if tc.name = "google_search" then env.run tc.name tc.arguments
    else if tc.name = "ai_pipe_workflow" then env.run tc.name tc.arguments
    else if tc.name = "execute_javascript" then env.run tc.name tc.arguments
    else .error ("Unknown tool: " ++ tc.name)

/-- The body of the `for` loop of `handleToolCalls` (lines 422–445) for one
tool call: a successful `executeTool` pushes `{tool_call_id, result}`, a
thrown error is caught and pushed as `{tool_call_id, result: {error:
message}}`.  Either way exactly one entry is produced. -/
def handleToolCall (env : ToolEnv) (tc : ToolCall) : ToolResult :=
  match executeTool env tc with
  | .ok p => { tool_call_id := tc.id, result := .success p }
  | .error e => { tool_call_id := tc.id, result := .error e }

/-- `handleToolCalls` (lines 416–448) with the gate in `Running` state
(each iteration's `checkPauseState` returns without raising): the calls are
executed sequentially in the order received, accumulating one result
each. -/
def handleToolCalls (env : ToolEnv) (toolCalls : List ToolCall) : List ToolResult :=
  toolCalls.map (handleToolCall env)

/-! ## Conversation state and the turn loop (`agentLoop`, `callLLM`) -/

/-- Message roles of the conversation array. -/
inductive Role
  | system
  | user
  | assistant
  | tool
deriving DecidableEq, Repr

/-- Content of a message: plain text for system/user/assistant messages;
for a tool message the source stores `JSON.stringify(result.result)` — the
embedding keeps the payload structured since no claim inspects the
serialized text. -/
inductive MessageContent
  | text (s : String)
  | json (p : ToolResultPayload)
deriving DecidableEq, Repr

/-- One entry of the `messages` array built by `agentLoop`. -/
structure Message where
  role : Role
  content : MessageContent
  tool_calls : List ToolCall
  tool_call_id : Option String
deriving DecidableEq, Repr

/-- Opening sentence of the `SYSTEM_PROMPT` constant (lines 98–131); the
rest of the prompt is prose no claim depends on. -/
def SYSTEM_PROMPT : String :=
  "You are an advanced LLM agent with multi-tool reasoning capabilities."

/-- The seed system message of a turn. -/
def systemMessage : Message :=
  { role := .system, content := .text SYSTEM_PROMPT, tool_calls := [], tool_call_id := none }

/-- The seed user message of a turn. -/
def userMessage (userInput : String) : Message :=
  { role := .user, content := .text userInput, tool_calls := [], tool_call_id := none }

/-- The assistant message pushed after tool execution (lines 366–370):
`{role: 'assistant', content: output, tool_calls: toolCalls}`. -/
def assistantMessage (output : String) (toolCalls : List ToolCall) : Message :=
  { role := .assistant, content := .text output, tool_calls := toolCalls,
    tool_call_id := none }

/-- The tool message pushed per result (lines 373–379): `{role: 'tool',
content: JSON.stringify(result.result), tool_call_id:
result.tool_call_id}`. -/
def toolMessage (r : ToolResult) : Message :=
  { role := .tool, content := .json r.result, tool_calls := [],
    tool_call_id := some r.tool_call_id }

/-- A JS error object as observed by the catch in `sendMessage`: `name` and
`message`. -/
structure JsError where
  name : String
  message : String
deriving DecidableEq, Repr

/-- One remote completion round-trip's outcome, supplied by the
environment: the fetch may reject with an `AbortError` (the shared
controller was aborted while the request was in flight), the response may
be non-2xx, the parsed body may lack the `choices[0].message` path (the
property access then throws a `TypeError`), or a message arrives with
optional `content` and optional `tool_calls`. -/
inductive RemoteOutcome
  | aborted
  | httpError (status : Nat) (statusText : String)
  | badBody (detail : String)
  | reply (content : Option String) (tool_calls : Option (List ToolCall))
deriving DecidableEq, Repr

/-- What `callLLM` hands back to the loop. -/
structure LLMReply where
  output : String
  toolCalls : List ToolCall
deriving DecidableEq, Repr

/-- `callLLM` (lines 385–414): a non-ok response throws
`Error('LLM API error: <status> <statusText>')`; an aborted fetch rejects
with a `DOMException` named `AbortError`; a malformed body throws a
`TypeError`; otherwise `content` and `tool_calls` are defaulted with
`|| ""` and `|| []`. -/
def callLLM : RemoteOutcome → Except JsError LLMReply
  | .aborted =>
    .error { name := "AbortError", message := "The user aborted a request." }
  | .httpError status statusText =>
    .error { name := "Error",
             message := "LLM API error: " ++ toString status ++ " " ++ statusText }
  | .badBody detail =>
    .error { name := "TypeError", message := detail }
  | .reply content tool_calls =>
    .ok { output := content.getD "", toolCalls := tool_calls.getD [] }

/-- How a turn ends, as shown by `sendMessage` (lines 222–237):
`completed` is a normal return of `agentLoop`; `cancelledByUser` is the
catch branch for an error named `AbortError` ("Request was cancelled by
user."); `errorShown m` is the generic branch displaying `Error: <m>`;
`oracleExhausted` is a model artifact meaning the supplied list of remote
outcomes ran out while the loop wanted another round-trip. -/
inductive Termination
  | completed
  | cancelledByUser
  | errorShown (message : String)
  | oracleExhausted
deriving DecidableEq, Repr

/-- The catch block of `sendMessage` (lines 225–231): only an error whose
`name` is `AbortError` is reported as a cancellation; everything else is
shown as `Error: <message>`. -/
def classifyError (e : JsError) : Termination :=
  if e.name = "AbortError" then .cancelledByUser
  else .errorShown ("Error: " ++ e.message)

/-- JS `String.prototype.trim()` as used in `if (output.trim())`: strip
leading and trailing whitespace.  (Defined over the character list so that
it evaluates by reduction; Lean's own `String.trim` is computationally
equivalent but does not reduce in the kernel.) -/
def trimmed (s : String) : String :=
  String.mk
    (((s.data.dropWhile Char.isWhitespace).reverse.dropWhile
        Char.isWhitespace).reverse)

/-- Observable outcome of running a turn: the termination, the final
conversation array, the list of texts displayed via
`addMessage('agent', output)`, and the number of remote completion calls
issued. -/
structure RunResult where
  termination : Termination
  messages : List Message
  agentOutputs : List String
  calls : Nat
deriving DecidableEq, Repr

/-- The `while (true)` body of `agentLoop` (lines 335–382), run with the
gate in `Running` state (each `checkPauseState` returns without raising; a
cancellation that lands while the request is in flight is the `aborted`
remote outcome).  Each iteration consumes one remote outcome: a `callLLM`
failure propagates to `sendMessage` and is classified there; otherwise a
non-empty (after trimming) `output` is displayed; if `tool_calls` is empty
the loop returns; else the tools are dispatched and the assistant message
followed by one tool message per result is appended before looping. -/
def runLoop (env : ToolEnv) :
    List RemoteOutcome → List Message → List String → Nat → RunResult
  | [], msgs, outs, n =>
    { termination := .oracleExhausted, messages := msgs, agentOutputs := outs,
      calls := n }
  | o :: rest, msgs, outs, n =>
    match callLLM o with
    | .error e =>
      { termination := classifyError e, messages := msgs, agentOutputs := outs,
        calls := n + 1 }
    | .ok reply =>
      let outs' := if trimmed reply.output = "" then outs else outs ++ [reply.output]
      if reply.toolCalls = [] then
        { termination := .completed, messages := msgs, agentOutputs := outs',
          calls := n + 1 }
      else
        runLoop env rest
          (msgs ++ assistantMessage reply.output reply.toolCalls ::
            (handleToolCalls env reply.toolCalls).map toolMessage)
          outs' (n + 1)

/-- `agentLoop` (lines 328–383): seed the conversation with the system
prompt and the user's message, then iterate. -/
def agentLoop (env : ToolEnv) (userInput : String)
    (outcomes : List RemoteOutcome) : RunResult :=
  runLoop env outcomes [systemMessage, userMessage userInput] [] 0

/-- A concrete environment for witnesses: argument parsing succeeds, every
executor fails with a thrown network error. -/
def offlineEnv : ToolEnv :=
  { parse := fun _ => .ok (), run := fun _ _ => .error "network down" }

/-- A concrete unknown tool call (the model can name tools outside the
registry). -/
def mysteryCall : ToolCall :=
  { id := "call_0", name := "mystery_tool", arguments := "42" }

/-- A concrete search call. -/
def searchCall : ToolCall :=
  { id := "call_1", name := "google_search", arguments := "tesla stock" }

/-- A concrete code-eval call. -/
def evalCall : ToolCall :=
  { id := "call_2", name := "execute_javascript", arguments := "1 plus 1" }

/-! ## Helper lemmas -/

lemma handleToolCall_id (env : ToolEnv) (tc : ToolCall) :
    (handleToolCall env tc).tool_call_id = tc.id := by
  cases h : executeTool env tc with
  | ok p => simp [handleToolCall, h]
  | error e => simp [handleToolCall, h]

lemma handleToolCalls_ids (env : ToolEnv) (toolCalls : List ToolCall) :
    (handleToolCalls env toolCalls).map ToolResult.tool_call_id =
      toolCalls.map ToolCall.id := by
  induction toolCalls with
  | nil => rfl
  | cons tc rest ih =>
    simp only [handleToolCalls, List.map_cons] at ih ⊢
    rw [handleToolCall_id, ih]

lemma runLoop_nil (env : ToolEnv) (msgs : List Message) (outs : List String)
    (n : Nat) :
    runLoop env [] msgs outs n =
      { termination := .oracleExhausted, messages := msgs, agentOutputs := outs,
        calls := n } := rfl

lemma callLLM_aborted :
    callLLM .aborted =
      .error { name := "AbortError", message := "The user aborted a request." } := rfl

lemma callLLM_http (status : Nat) (statusText : String) :
    callLLM (.httpError status statusText) =
      .error { name := "Error",
               message := "LLM API error: " ++ toString status ++ " " ++ statusText } := rfl

lemma callLLM_badBody (detail : String) :
    callLLM (.badBody detail) =
      .error { name := "TypeError", message := detail } := rfl

lemma runLoop_fail (env : ToolEnv) (o : RemoteOutcome) (e : JsError)
    (rest : List RemoteOutcome) (msgs : List Message) (outs : List String)
    (n : Nat) (h : callLLM o = .error e) :
    runLoop env (o :: rest) msgs outs n =
      { termination := classifyError e, messages := msgs, agentOutputs := outs,
        calls := n + 1 } := by
  conv_lhs => unfold runLoop
  rw [h]

lemma runLoop_reply_empty (env : ToolEnv) (content : Option String)
    (tool_calls : Option (List ToolCall)) (rest : List RemoteOutcome)
    (msgs : List Message) (outs : List String) (n : Nat)
    (h : tool_calls.getD ([] : List ToolCall) = []) :
    runLoop env (.reply content tool_calls :: rest) msgs outs n =
      { termination := .completed, messages := msgs,
        agentOutputs :=
          if trimmed (content.getD "") = "" then outs else outs ++ [content.getD ""],
        calls := n + 1 } := by
  conv_lhs => unfold runLoop
  simp only [callLLM]
  simp [h]

lemma runLoop_reply_tools (env : ToolEnv) (content : Option String)
    (tool_calls : Option (List ToolCall)) (rest : List RemoteOutcome)
    (msgs : List Message) (outs : List String) (n : Nat)
    (h : tool_calls.getD ([] : List ToolCall) ≠ []) :
    runLoop env (.reply content tool_calls :: rest) msgs outs n =
      runLoop env rest
        (msgs ++ assistantMessage (content.getD "") (tool_calls.getD []) ::
          (handleToolCalls env (tool_calls.getD [])).map toolMessage)
        (if trimmed (content.getD "") = "" then outs else outs ++ [content.getD ""])
        (n + 1) := by
  conv_lhs => unfold runLoop
  simp only [callLLM]
  simp [h]

lemma runLoop_extend (env : ToolEnv) :
    ∀ (outcomes : List RemoteOutcome) (msgs : List Message) (outs : List String)
      (n : Nat), ∃ t, (runLoop env outcomes msgs outs n).messages = msgs ++ t := by
  intro outcomes
  induction outcomes with
  | nil => intro msgs outs n; exact ⟨[], by simp [runLoop_nil]⟩
  | cons o rest ih =>
    intro msgs outs n
    cases o with
    | aborted =>
      exact ⟨[], by rw [runLoop_fail env _ _ rest msgs outs n callLLM_aborted]; simp⟩
    | httpError status statusText =>
      exact ⟨[], by
        rw [runLoop_fail env _ _ rest msgs outs n (callLLM_http status statusText)]
        simp⟩
    | badBody detail =>
      exact ⟨[], by
        rw [runLoop_fail env _ _ rest msgs outs n (callLLM_badBody detail)]; simp⟩
    | reply content tool_calls =>
      by_cases h : tool_calls.getD ([] : List ToolCall) = []
      · exact ⟨[], by rw [runLoop_reply_empty env content tool_calls rest msgs outs n h]; simp⟩
      · rw [runLoop_reply_tools env content tool_calls rest msgs outs n h]
        rcases ih (msgs ++ assistantMessage (content.getD "") (tool_calls.getD []) ::
            (handleToolCalls env (tool_calls.getD [])).map toolMessage)
          (if trimmed (content.getD "") = "" then outs else outs ++ [content.getD ""])
          (n + 1) with ⟨t, ht⟩
        exact ⟨_, by rw [ht, List.append_assoc]⟩

/-- Tool-call ids issued by a message: an assistant message issues the ids
of its `tool_calls`; other roles issue none. -/
def issuedBy (m : Message) : List String :=
  if m.role = .assistant then m.tool_calls.map ToolCall.id else []

/-- `toolRefsOk issued msgs` states that every `role = tool` message in
`msgs` carries a `tool_call_id` that was issued either in `issued` or by an
assistant message strictly earlier in `msgs`. -/
def toolRefsOk : List String → List Message → Prop
  | _, [] => True
  | issued, m :: rest =>
    (m.role = .tool → ∃ cid, m.tool_call_id = some cid ∧ cid ∈ issued) ∧
    toolRefsOk (issued ++ issuedBy m) rest

/-- The ids issued on top of `issued` after traversing `msgs`. -/
def issuedAfter : List String → List Message → List String
  | issued, [] => issued
  | issued, m :: rest => issuedAfter (issued ++ issuedBy m) rest

lemma toolRefsOk_append :
    ∀ (front tail : List Message) (issued : List String),
      toolRefsOk issued (front ++ tail) ↔
        toolRefsOk issued front ∧ toolRefsOk (issuedAfter issued front) tail := by
  intro front
  induction front with
  | nil => intro tail issued; simp [toolRefsOk, issuedAfter]
  | cons m front ih =>
    intro tail issued
    simp [toolRefsOk, issuedAfter, ih, and_assoc]

lemma toolRefsOk_toolMessages :
    ∀ (results : List ToolResult) (issued : List String),
      (∀ r ∈ results, r.tool_call_id ∈ issued) →
      toolRefsOk issued (results.map toolMessage) := by
  intro results
  induction results with
  | nil => intro issued _; trivial
  | cons r rs ih =>
    intro issued hmem
    refine ⟨fun _ => ⟨r.tool_call_id, rfl, hmem r (by simp)⟩, ?_⟩
    have hb : issued ++ issuedBy (toolMessage r) = issued := by
      simp [issuedBy, toolMessage]
    rw [hb]
    exact ih issued fun r' hr' => hmem r' (by simp [hr'])

lemma toolRefsOk_segment (env : ToolEnv) (issued : List String) (out : String)
    (toolCalls : List ToolCall) :
    toolRefsOk issued
      (assistantMessage out toolCalls ::
        (handleToolCalls env toolCalls).map toolMessage) := by
  refine ⟨fun h => absurd h (by simp [assistantMessage]), ?_⟩
  have hb :
      issued ++ issuedBy (assistantMessage out toolCalls) =
        issued ++ toolCalls.map ToolCall.id := by
    simp [issuedBy, assistantMessage]
  rw [hb]
  apply toolRefsOk_toolMessages
  intro r hr
  simp only [handleToolCalls, List.mem_map] at hr
  rcases hr with ⟨tc, htc, rfl⟩
  rw [handleToolCall_id]
  exact List.mem_append_right _ (List.mem_map_of_mem _ htc)

lemma runLoop_toolRefsOk (env : ToolEnv) :
    ∀ (outcomes : List RemoteOutcome) (msgs : List Message) (outs : List String)
      (n : Nat), toolRefsOk [] msgs →
      toolRefsOk [] (runLoop env outcomes msgs outs n).messages := by
  intro outcomes
  induction outcomes with
  | nil => intro msgs outs n h; simpa [runLoop_nil] using h
  | cons o rest ih =>
    intro msgs outs n h
    cases o with
    | aborted => rw [runLoop_fail env _ _ rest msgs outs n callLLM_aborted]; exact h
    | httpError status statusText =>
      rw [runLoop_fail env _ _ rest msgs outs n (callLLM_http status statusText)]
      exact h
    | badBody detail =>
      rw [runLoop_fail env _ _ rest msgs outs n (callLLM_badBody detail)]; exact h
    | reply content tool_calls =>
      by_cases hc : tool_calls.getD ([] : List ToolCall) = []
      · rw [runLoop_reply_empty env content tool_calls rest msgs outs n hc]; exact h
      · rw [runLoop_reply_tools env content tool_calls rest msgs outs n hc]
        apply ih
        exact (toolRefsOk_append msgs _ []).mpr ⟨h, toolRefsOk_segment env _ _ _⟩

/-! ## Claim theorems -/

/-- C1: the claim says every cancellation — including one made while the
gate is in the Paused state — makes the next checkpoint raise `Cancelled`
immediately.  The code contradicts this: `cancelProcessing` only sets the
abort flag and never clears `isPaused`, so from a paused, processing state
the checkpoint's polling loop keeps observing `blocked` (the abort check
sits after the loop) and never raises; only from a running state, or after
an additional `resumeProcessing`, does the checkpoint raise.  This theorem
evaluates the code at the failing input. -/
theorem c1_cancel_from_paused_stays_blocked :
    checkPauseStep (cancelProcessing
      { isProcessing := true, isPaused := true, aborted := false }) =
        .blocked ∧
    checkPauseStep (cancelProcessing
      { isProcessing := true, isPaused := false, aborted := false }) =
        .raiseCancelled ∧
    checkPauseStep (resumeProcessing (cancelProcessing
      { isProcessing := true, isPaused := true, aborted := false })) =
        .raiseCancelled := by
  decide

/-- C2: dispatching a tool call never throws — `handleToolCall` (the per-call
body of `handleToolCalls`) always returns a `ToolResult` for the issued id,
converting every `executeTool` failure into an `{error: message}` payload;
and for an unknown tool name (with well-formed arguments, since the source
parses the arguments before the name switch) the captured message is exactly
"Unknown tool: <name>". -/
theorem c2_dispatch_never_throws :
    ∀ (env : ToolEnv) (tc : ToolCall),
      ((∃ p, executeTool env tc = .ok p ∧
          handleToolCall env tc = ⟨tc.id, .success p⟩) ∨
        (∃ m, executeTool env tc = .error m ∧
          handleToolCall env tc = ⟨tc.id, .error m⟩)) ∧
      (knownTool tc.name = false → env.parse tc.arguments = .ok () →
        executeTool env tc = .error ("Unknown tool: " ++ tc.name) ∧
        handleToolCall env tc = ⟨tc.id, .error ("Unknown tool: " ++ tc.name)⟩) := by
  intro env tc
  constructor
  · cases h : executeTool env tc with
    | ok p => exact .inl ⟨p, rfl, by simp [handleToolCall, h]⟩
    | error m => exact .inr ⟨m, rfl, by simp [handleToolCall, h]⟩
  · intro hk hp
    simp only [knownTool, Bool.or_eq_false_iff, decide_eq_false_iff_not] at hk
    have he : executeTool env tc = .error ("Unknown tool: " ++ tc.name) := by
      simp [executeTool, hp, hk.1.1, hk.1.2, hk.2]
    exact ⟨he, by simp [handleToolCall, he]⟩

/-- C2 witness: a concrete unknown tool name with parseable arguments is
captured as exactly the "Unknown tool: <name>" error payload. -/
theorem c2_dispatch_never_throws_witness :
    knownTool mysteryCall.name = false ∧
    handleToolCall offlineEnv mysteryCall =
      ⟨mysteryCall.id, .error ("Unknown tool: " ++ mysteryCall.name)⟩ :=
  ⟨by decide, ((c2_dispatch_never_throws offlineEnv mysteryCall).2 (by decide) rfl).2⟩

/-- C3: `handleToolCalls` produces exactly one result per issued call, with
matching `tool_call_id`s in the order the calls were issued (so distinct
issued ids give distinct result ids), a failing execution still yields its
result as an error payload, and in the loop the results are appended as tool
messages — in that order, after the one assistant message — before the next
model request (the recursive `runLoop` call on the remaining outcomes). -/
theorem c3_one_result_per_call :
    ∀ (env : ToolEnv) (toolCalls : List ToolCall),
      ((handleToolCalls env toolCalls).map ToolResult.tool_call_id =
        toolCalls.map ToolCall.id) ∧
      (handleToolCalls env toolCalls).length = toolCalls.length ∧
      ((toolCalls.map ToolCall.id).Nodup →
        ((handleToolCalls env toolCalls).map ToolResult.tool_call_id).Nodup) ∧
      (∀ tc e, executeTool env tc = .error e →
        handleToolCall env tc = ⟨tc.id, .error e⟩) ∧
      (∀ (content : Option String) (tool_calls : Option (List ToolCall))
          (rest : List RemoteOutcome) (msgs : List Message) (outs : List String)
          (n : Nat), tool_calls.getD ([] : List ToolCall) ≠ [] →
        runLoop env (RemoteOutcome.reply content tool_calls :: rest) msgs outs n =
          runLoop env rest
            (msgs ++ assistantMessage (content.getD "") (tool_calls.getD []) ::
              (handleToolCalls env (tool_calls.getD [])).map toolMessage)
            (if trimmed (content.getD "") = "" then outs else outs ++ [content.getD ""])
            (n + 1)) := by
  intro env toolCalls
  refine ⟨handleToolCalls_ids env toolCalls, by simp [handleToolCalls], ?_, ?_, ?_⟩
  · intro hnd
    rw [handleToolCalls_ids]
    exact hnd
  · intro tc e he
    simp [handleToolCall, he]
  · intro content tool_calls rest msgs outs n hne
    exact runLoop_reply_tools env content tool_calls rest msgs outs n hne

/-- C3 witness: two concrete calls against an environment whose executors
all throw — the two results carry the issued ids in order (and are distinct),
the failing execution is an error payload, and one loop iteration appends the
assistant message followed by the tool results before recursing. -/
theorem c3_one_result_per_call_witness :
    ((handleToolCalls offlineEnv [searchCall, evalCall]).map
      ToolResult.tool_call_id).Nodup ∧
    handleToolCall offlineEnv searchCall = ⟨searchCall.id, .error "network down"⟩ ∧
    runLoop offlineEnv [RemoteOutcome.reply (some "working") (some [searchCall])]
        [] [] 0 =
      runLoop offlineEnv []
        ([] ++ assistantMessage "working" [searchCall] ::
          (handleToolCalls offlineEnv [searchCall]).map toolMessage)
        (if trimmed "working" = "" then [] else [] ++ ["working"]) 1 := by
  have h := c3_one_result_per_call offlineEnv [searchCall, evalCall]
  refine ⟨h.2.2.1 (by decide), h.2.2.2.1 searchCall "network down" rfl, ?_⟩
  exact (c3_one_result_per_call offlineEnv [searchCall, evalCall]).2.2.2.2
    (some "working") (some [searchCall]) [] [] [] 0 (by decide)

/-- C4 counterexample: the claim asserts that a first response with no tool
calls always leaves exactly one assistant message.  When the response also
carries no content (`content` null, so `output` is the empty string), the
`if (output.trim())` guard skips `addMessage('agent', ...)`: the turn
completes after its single round-trip having displayed zero assistant
messages, not one. -/
theorem c4_counterexample :
    (agentLoop offlineEnv "hello" [RemoteOutcome.reply none (some [])]).agentOutputs
        = [] ∧
    ¬ (agentLoop offlineEnv "hello"
        [RemoteOutcome.reply none (some [])]).agentOutputs.length = 1 ∧
    (agentLoop offlineEnv "hello" [RemoteOutcome.reply none (some [])]).termination
        = .completed ∧
    (agentLoop offlineEnv "hello" [RemoteOutcome.reply none (some [])]).calls = 1 := by
  decide

/-- C4 (amended): if the model's first response for a turn includes no tool
calls, the loop terminates after exactly one remote round-trip, appends
nothing to the conversation (which keeps just the system and user seed
messages, so in particular no tool messages), and displays at most one
assistant message — exactly one iff the response text is non-empty after
trimming. -/
theorem c4_no_tools_one_round_trip :
    ∀ (env : ToolEnv) (userInput : String) (content : Option String)
      (tool_calls : Option (List ToolCall)) (rest : List RemoteOutcome),
      tool_calls.getD ([] : List ToolCall) = [] →
      agentLoop env userInput (RemoteOutcome.reply content tool_calls :: rest) =
        { termination := .completed,
          messages := [systemMessage, userMessage userInput],
          agentOutputs :=
            if trimmed (content.getD "") = "" then [] else [content.getD ""],
          calls := 1 } := by
  intro env userInput content tool_calls rest h
  unfold agentLoop
  rw [runLoop_reply_empty env content tool_calls rest _ [] 0 h]
  simp

/-- C4 witness: a response with non-empty text and an empty `tool_calls`
array ends the turn after one round-trip with the text displayed once. -/
theorem c4_no_tools_one_round_trip_witness :
    agentLoop offlineEnv "hello" [RemoteOutcome.reply (some "Hi there.") none] =
      { termination := .completed,
        messages := [systemMessage, userMessage "hello"],
        agentOutputs := ["Hi there."],
        calls := 1 } := by
  have h := c4_no_tools_one_round_trip offlineEnv "hello" (some "Hi there.") none [] rfl
  rw [h]
  decide

/-- C5: whenever the submitted code completes without throwing,
`executeJavaScript` returns the success envelope — `success: true`, the
captured console output, and `result` equal to the code's value when
`return_value` is true and `null` when it is false. -/
theorem c5_code_eval_success :
    ∀ (code : List JsStmt) (return_value : Bool) (v : JsVal) (logs : List String),
      runStmts code [] = .ok (v, logs) →
      executeJavaScript code return_value =
        .ok code (if return_value then v else .vnull) logs ∧
      (executeJavaScript code return_value).success = true ∧
      (executeJavaScript code true).resultField = some v ∧
      (executeJavaScript code false).resultField = some .vnull := by
  intro code return_value v logs h
  refine ⟨by simp [executeJavaScript, h], ?_, ?_, ?_⟩ <;>
    simp [executeJavaScript, h, JsEnvelope.success, JsEnvelope.resultField]

/-- C5 witness: the code "return 1+1" with `return_value` true yields result
2, empty console output, and success true. -/
theorem c5_code_eval_success_witness :
    runStmts [JsStmt.ret (JsExpr.add (.lit 1) (.lit 1))] [] = .ok (.vnum 2, []) ∧
    executeJavaScript [JsStmt.ret (JsExpr.add (.lit 1) (.lit 1))] true =
      .ok [JsStmt.ret (JsExpr.add (.lit 1) (.lit 1))] (.vnum 2) [] :=
  ⟨rfl,
    (c5_code_eval_success [JsStmt.ret (JsExpr.add (.lit 1) (.lit 1))] true
      (.vnum 2) [] rfl).1⟩

/-- C6: whenever the submitted code throws, `executeJavaScript` returns the
failure envelope: `success` false, the `error` field populated with the
thrown message, and no `result` field present. -/
theorem c6_code_eval_throw :
    ∀ (code : List JsStmt) (return_value : Bool) (msg : String),
      runStmts code [] = .error msg →
      executeJavaScript code return_value = .err code msg ∧
      (executeJavaScript code return_value).success = false ∧
      (executeJavaScript code return_value).errorField = some msg ∧
      (executeJavaScript code return_value).resultField = none := by
  intro code return_value msg h
  refine ⟨by simp [executeJavaScript, h], ?_, ?_, ?_⟩ <;>
    simp [executeJavaScript, h, JsEnvelope.success, JsEnvelope.errorField,
      JsEnvelope.resultField]

/-- C6 witness: a concrete throwing snippet produces the failure envelope
with the thrown message and an absent result. -/
theorem c6_code_eval_throw_witness :
    executeJavaScript [JsStmt.throwE "boom"] true = .err [JsStmt.throwE "boom"] "boom" ∧
    (executeJavaScript [JsStmt.throwE "boom"] true).resultField = none :=
  ⟨(c6_code_eval_throw [JsStmt.throwE "boom"] true "boom" rfl).1,
    (c6_code_eval_throw [JsStmt.throwE "boom"] true "boom" rfl).2.2.2⟩

/-- C7: a provider response with zero result items (the Custom Search API
omits the `items` field when there are no results) makes `googleSearch`
return the success envelope with the query, an empty results list and the
explanatory message "No results found" — not a thrown error. -/
theorem c7_search_zero_results :
    ∀ (query : String) (status : Nat),
      googleSearch query
          (.respond { status := status, items := none, errorBody := none }) =
        .ok { query := query, results := [], message := some "No results found" } := by
  intro query status
  rfl

/-- C8: an aborted remote completion call (an error named `AbortError`)
surfaces as the cancelled termination, while a non-2xx status or a
malformed body surfaces as the displayed remote error; in every case the
turn ends with exactly one more remote call having been made, whatever
outcomes would have followed — nothing is retried. -/
theorem c8_remote_failures_terminate :
    ∀ (env : ToolEnv) (rest : List RemoteOutcome) (msgs : List Message)
      (outs : List String) (n : Nat),
      (runLoop env (.aborted :: rest) msgs outs n =
        { termination := .cancelledByUser, messages := msgs, agentOutputs := outs,
          calls := n + 1 }) ∧
      (∀ (status : Nat) (statusText : String),
        runLoop env (.httpError status statusText :: rest) msgs outs n =
          { termination := .errorShown
              ("Error: " ++ ("LLM API error: " ++ toString status ++ " " ++ statusText)),
            messages := msgs, agentOutputs := outs, calls := n + 1 }) ∧
      (∀ detail : String,
        runLoop env (.badBody detail :: rest) msgs outs n =
          { termination := .errorShown ("Error: " ++ detail),
            messages := msgs, agentOutputs := outs, calls := n + 1 }) := by
  intro env rest msgs outs n
  refine ⟨?_, fun status statusText => ?_, fun detail => ?_⟩
  · rw [runLoop_fail env _ _ rest msgs outs n callLLM_aborted]
    simp [classifyError]
  · rw [runLoop_fail env _ _ rest msgs outs n (callLLM_http status statusText)]
    simp [classifyError]
  · rw [runLoop_fail env _ _ rest msgs outs n (callLLM_badBody detail)]
    simp [classifyError]

/-- C9: along every turn the conversation is well formed: it starts with the
system message; every `role = tool` message references a `tool_call_id`
issued by an assistant message appearing strictly earlier; the state only
ever grows by appending (the input messages are a prefix of the output);
and an iteration with tool calls appends the single assistant message
(carrying its `tool_calls`) followed by the tool results, before the next
model request. -/
theorem c9_conversation_invariants :
    ∀ (env : ToolEnv) (userInput : String) (outcomes : List RemoteOutcome),
      (agentLoop env userInput outcomes).messages.head?.map Message.role =
        some Role.system ∧
      toolRefsOk [] (agentLoop env userInput outcomes).messages ∧
      (∀ (msgs : List Message) (outs : List String) (n : Nat),
        ∃ t, (runLoop env outcomes msgs outs n).messages = msgs ++ t) ∧
      (∀ (content : Option String) (tool_calls : Option (List ToolCall))
          (rest : List RemoteOutcome) (msgs : List Message) (outs : List String)
          (n : Nat), tool_calls.getD ([] : List ToolCall) ≠ [] → ∃ t,
        (runLoop env (RemoteOutcome.reply content tool_calls :: rest)
            msgs outs n).messages =
          msgs ++ (assistantMessage (content.getD "") (tool_calls.getD []) ::
            (handleToolCalls env (tool_calls.getD [])).map toolMessage) ++ t) := by
  intro env userInput outcomes
  refine ⟨?_, ?_, ?_, ?_⟩
  · rcases runLoop_extend env outcomes [systemMessage, userMessage userInput] [] 0
      with ⟨t, ht⟩
    unfold agentLoop
    rw [ht]
    rfl
  · exact runLoop_toolRefsOk env outcomes _ [] 0
      (by simp [toolRefsOk, systemMessage, userMessage])
  · exact runLoop_extend env outcomes
  · intro content tool_calls rest msgs outs n hne
    rw [runLoop_reply_tools env content tool_calls rest msgs outs n hne]
    rcases runLoop_extend env rest
      (msgs ++ assistantMessage (content.getD "") (tool_calls.getD []) ::
        (handleToolCalls env (tool_calls.getD [])).map toolMessage)
      (if trimmed (content.getD "") = "" then outs else outs ++ [content.getD ""])
      (n + 1) with ⟨t, ht⟩
    exact ⟨t, by rw [ht, List.append_assoc]⟩

/-- C9 witness: the invariants at a concrete one-iteration run, and the
per-iteration append shape discharged at a concrete issued tool call. -/
theorem c9_conversation_invariants_witness :
    toolRefsOk []
      (agentLoop offlineEnv "hi"
        [RemoteOutcome.reply (some "working") (some [searchCall])]).messages ∧
    (∃ t, (runLoop offlineEnv
        [RemoteOutcome.reply (some "working") (some [searchCall])]
        [systemMessage, userMessage "hi"] [] 0).messages =
      [systemMessage, userMessage "hi"] ++
        (assistantMessage "working" [searchCall] ::
          (handleToolCalls offlineEnv [searchCall]).map toolMessage) ++ t) :=
  ⟨(c9_conversation_invariants offlineEnv "hi"
      [RemoteOutcome.reply (some "working") (some [searchCall])]).2.1,
    (c9_conversation_invariants offlineEnv "hi"
      [RemoteOutcome.reply (some "working") (some [searchCall])]).2.2.2
      (some "working") (some [searchCall]) [] [systemMessage, userMessage "hi"]
      [] 0 (by decide)⟩

/-- C10: `googleSearch` never inspects the HTTP status (nor any error object
in the body): the envelope depends only on the `items` field, any body
lacking `items` — including a provider error response carrying a JSON error
body — is returned as the zero-results success envelope, so such provider
errors are indistinguishable from a genuine empty result set. -/
theorem c10_search_ignores_status :
    ∀ (query : String) (items : Option (List ProviderItem)) (s₁ s₂ : Nat)
      (e₁ e₂ : Option String),
      (googleSearch query (.respond { status := s₁, items := items, errorBody := e₁ }) =
        googleSearch query (.respond { status := s₂, items := items, errorBody := e₂ })) ∧
      (googleSearch query (.respond { status := s₁, items := none, errorBody := e₁ }) =
        .ok { query := query, results := [], message := some "No results found" }) ∧
      (googleSearch query
          (.respond { status := 403, items := none,
                      errorBody := some "rateLimitExceeded" }) =
        googleSearch query
          (.respond { status := 200, items := none, errorBody := none })) := by
  intro query items s₁ s₂ e₁ e₂
  refine ⟨?_, rfl, rfl⟩
  cases items <;> rfl

end Synapse
